import Mathlib

/-!
Verification development for the quick-launch tool frontend
(`shihuaidexianyu/tauri-app`).  The TypeScript sources are shallowly
embedded as executable Lean definitions:

* `src/types.ts`                     → `SearchResult`, `AppSettings`,
                                       `ModeId`, `ModeConfig`,
                                       `FallbackVisual`, `LauncherState`,
                                       `LauncherAction`
* `src/constants/modes.ts`           → `DEFAULT_MODE_CONFIGS`,
                                       `buildPrefixToMode`,
                                       `detectModeFromInput`
* `src/utils/fallbackIcon.ts`        → `FALLBACK_ICON_LIBRARY`,
                                       `pickFallbackIcon`
* `src/state/launcherReducer.ts`     → `initialLauncherState`,
                                       `launcherReducer`
* `src/App.tsx`                      → `App.*` (query effect, staleness
                                       check, debounce trace machine,
                                       selection stepping, escape /
                                       hide-window / execute handlers)
* `src/components/SettingsWindow.tsx`→ `Settings.*` (validation chain,
                                       save, reset)

JS `number` values that the code only ever treats integrally
(`query_delay_ms`, `max_results`, `score`, indices) are embedded as
`Int`/`Nat`.  JS strings are embedded as Lean `String`; `charCodeAt`
is embedded as the Unicode code point, which agrees with UTF-16 code
units on BMP strings.  The JS whitespace class `\s` is embedded by its
ASCII fragment.
-/

namespace Launcher

/-! ### JavaScript string primitives -/

/-- ASCII fragment of the JS `\s` character class. -/
def jsWhitespace (c : Char) : Bool :=
  c = ' ' || c = '\t' || c = '\n' || c = '\r' || c = '\x0b' || c = '\x0c'

/-- JS regex line terminators (ASCII fragment); `.` never matches these. -/
def isLineTerminator (c : Char) : Bool :=
  c = '\n' || c = '\r'

/-- The JS regex character class `[a-zA-Z]`. -/
def isAsciiAlpha (c : Char) : Bool :=
  (97 ≤ c.toNat && c.toNat ≤ 122) || (65 ≤ c.toNat && c.toNat ≤ 90)

/-- `input.replace(/^\s+/, "")` — strip leading whitespace. -/
def jsTrimLeft (s : String) : String :=
  ⟨s.toList.dropWhile jsWhitespace⟩

/-- JS `String.prototype.trim()` — strip leading and trailing whitespace. -/
def jsTrim (s : String) : String :=
  ⟨((s.toList.dropWhile jsWhitespace).reverse.dropWhile jsWhitespace).reverse⟩

/-- JS `x | 0`: coercion of an integer value to a signed 32-bit integer
(two's complement wrap-around). -/
def toInt32 (x : Int) : Int :=
  (x + 2 ^ 31) % 2 ^ 32 - 2 ^ 31

/-! ### `src/types.ts` -/

/-- `SearchResult` from `src/types.ts` (six fields; the copy local to
`App.tsx` additionally carries `action_payload`, see `AppSearchResult`). -/
structure SearchResult where
  id : String
  title : String
  subtitle : String
  icon : String
  score : Int
  action_id : String
deriving DecidableEq

/-- `AppSettings` from `src/types.ts`. -/
structure AppSettings where
  global_hotkey : String
  query_delay_ms : Int
  max_results : Int
  enable_app_results : Bool
  enable_bookmark_results : Bool
  prefix_app : String
  prefix_bookmark : String
  prefix_search : String
  launch_on_startup : Bool
  force_english_input : Bool
  debug_mode : Bool
deriving DecidableEq

/-- `ModeId` from `src/types.ts`. -/
inductive ModeId where
  | all
  | bookmark
  | app
  | search
deriving DecidableEq

/-- `ModeConfig` from `src/types.ts`.  The source field `prefix` (an
optional single-letter string) is embedded as the optional character
`prefixLetter`; the Lean field is renamed only because of lexical
constraints of this development. -/
structure ModeConfig where
  id : ModeId
  label : String
  prefixLetter : Option Char
  description : String
  placeholder : String
deriving DecidableEq

/-- `FallbackVisual` from `src/types.ts`. -/
structure FallbackVisual where
  glyph : String
  background : String
  color : String
deriving DecidableEq

/-! ### `src/constants/modes.ts` -/

/-- `DEFAULT_MODE_CONFIGS` from `src/constants/modes.ts`, as a function
from mode id to its configuration (`all` has no prefix). -/
def DEFAULT_MODE_CONFIGS : ModeId → ModeConfig
  | .all =>
    ⟨.all, "智能模式", none, "搜索应用与网页", "搜索应用和网页（支持拼音/首字母）"⟩
  | .bookmark =>
    ⟨.bookmark, "书签模式", some 'b', "仅在收藏夹中查找", "书签模式 · 输入书签关键词"⟩
  | .app =>
    ⟨.app, "应用模式", some 'r', "仅搜索本机应用", "应用模式 · 输入应用名称"⟩
  | .search =>
    ⟨.search, "搜索模式", some 's', "仅使用网络搜索", "搜索模式 · 输入关键词，在浏览器中搜索"⟩

/-- The `Object.values` enumeration order of the configuration record
(`all`, `bookmark`, `app`, `search`), as used by `buildPrefixToMode`. -/
def MODE_VALUES_ORDER : List ModeId := [.all, .bookmark, .app, .search]

/-- `buildPrefixToMode` from `src/constants/modes.ts`: a lookup keyed by
the lower-cased prefix letter; a later entry of the enumeration order
silently overwrites an earlier one on collision (the `reduce` writes in
order, so the `foldl` keeps the last match). -/
def buildPrefixToMode (configs : ModeId → ModeConfig) : Char → Option ModeConfig :=
  fun c =>
    MODE_VALUES_ORDER.foldl
      (fun acc mid =>
        match (configs mid).prefixLetter with
        | some p => if p.toLower = c then some (configs mid) else acc
        | none => acc)
      none

/-- The prefix map built from the default mode configurations
(`b` → bookmark, `r` → app, `s` → search). -/
def defaultPrefixToMode : Char → Option ModeConfig :=
  buildPrefixToMode DEFAULT_MODE_CONFIGS

/-- `ModeDetectionResult` from `src/constants/modes.ts`. -/
structure ModeDetectionResult where
  mode : ModeConfig
  cleanedQuery : String
  isPrefixOnly : Bool
deriving DecidableEq

/-- `detectModeFromInput` from `src/constants/modes.ts`.

The source strips leading whitespace and matches
`/^([a-zA-Z])(?:\s+|:)(.*)$/`: a letter, then either a non-empty
whitespace run or a colon, then a remainder free of line terminators
(JS `.` does not cross lines and the regex has no `m`/`s` flags).  With
a whitespace separator the greedy `\s+` consumes the maximal run, so the
captured remainder starts at the first non-whitespace character.  If the
letter (lower-cased) is found in the prefix map, the remainder with
leading whitespace stripped becomes `cleanedQuery` and `isPrefixOnly`
holds iff it is empty; otherwise the `all` mode is returned with the
original unmodified input. -/
def detectModeFromInput (inputValue : String)
    (prefixToMode : Char → Option ModeConfig) : ModeDetectionResult :=
  let noMatch : ModeDetectionResult :=
    ⟨DEFAULT_MODE_CONFIGS .all, inputValue, false⟩
  match (jsTrimLeft inputValue).toList with
  | c :: d :: rest =>
    if isAsciiAlpha c then
      let remainder? : Option (List Char) :=
        if d = ':' then
          if rest.all (fun x => !isLineTerminator x) then some rest else none
        else if jsWhitespace d then
          let tail := rest.dropWhile jsWhitespace
          if tail.all (fun x => !isLineTerminator x) then some tail else none
        else none
      match remainder? with
      | some remainder =>
        match prefixToMode c.toLower with
        | some mode =>
          let cleaned := remainder.dropWhile jsWhitespace
          ⟨mode, ⟨cleaned⟩, cleaned.isEmpty⟩
        | none => noMatch
      | none => noMatch
    else noMatch
  | _ => noMatch

/-! ### `src/utils/fallbackIcon.ts` -/

/-- `FALLBACK_ICON_LIBRARY` from `src/utils/fallbackIcon.ts` (ten entries). -/
def FALLBACK_ICON_LIBRARY : List FallbackVisual :=
  [⟨"🌀", "linear-gradient(135deg, #8093ff, #72e1ff)", "#ffffff"⟩,
   ⟨"✨", "linear-gradient(135deg, #ff9a9e, #fad0c4)", "#4b1f29"⟩,
   ⟨"🚀", "linear-gradient(135deg, #70f1ff, #6d88ff)", "#0b1c32"⟩,
   ⟨"📁", "linear-gradient(135deg, #f6d365, #fda085)", "#4b230d"⟩,
   ⟨"🔖", "linear-gradient(135deg, #8ec5fc, #e0c3fc)", "#2b1b33"⟩,
   ⟨"🌐", "linear-gradient(135deg, #84fab0, #8fd3f4)", "#083828"⟩,
   ⟨"⚡", "linear-gradient(135deg, #fddb92, #d1fdff)", "#402a04"⟩,
   ⟨"🔎", "linear-gradient(135deg, #c3cfe2, #c3cfe2)", "#1a2433"⟩,
   ⟨"💡", "linear-gradient(135deg, #ffd3a5, #fd6585)", "#3d1204"⟩,
   ⟨"🧭", "linear-gradient(135deg, #f5f7fa, #c3cfe2)", "#1c2230"⟩]

/-- `item.id || item.title || item.subtitle || String(item.score)`:
the first non-empty string wins (empty strings are falsy in JS). -/
def fallbackBasis (item : SearchResult) : String :=
  if item.id ≠ "" then item.id
  else if item.title ≠ "" then item.title
  else if item.subtitle ≠ "" then item.subtitle
  else toString item.score

/-- One iteration of the hash loop of `pickFallbackIcon`:
`hash = (hash << 5) - hash + code; hash |= 0`.  In JS `hash << 5`
already coerces its result to int32 before the exact float subtraction
and addition, after which `|= 0` wraps again. -/
def hashStep (hash : Int) (code : Nat) : Int :=
  toInt32 (toInt32 (hash * 32) - hash + code)

/-- The accumulated hash of `pickFallbackIcon` over the basis string
(`charCodeAt` embedded as the code point; equal on BMP strings). -/
def jsHashString (s : String) : Int :=
  s.toList.foldl (fun h c => hashStep h c.toNat) 0

/-- The index computed by `pickFallbackIcon`:
`Math.abs(hash) % FALLBACK_ICON_LIBRARY.length`. -/
def fallbackIndex (item : SearchResult) : Nat :=
  (jsHashString (fallbackBasis item)).natAbs % FALLBACK_ICON_LIBRARY.length

/-- `pickFallbackIcon` from `src/utils/fallbackIcon.ts`.  The source
indexes the array unconditionally; the embedding uses `getD` whose
default is never reached because the index is always in range (see the
claim C10 theorem). -/
def pickFallbackIcon (item : SearchResult) : FallbackVisual :=
  FALLBACK_ICON_LIBRARY.getD (fallbackIndex item) ⟨"◎", "", ""⟩

/-! ### `src/state/launcherReducer.ts` -/

/-- `LauncherState` from `src/types.ts`.  `selectedIndex` is a JS
`number`, embedded as `Int` so that arbitrary `SET_SELECTED_INDEX`
payloads are representable. -/
structure LauncherState where
  inputValue : String
  searchQuery : String
  results : List SearchResult
  selectedIndex : Int
  toastMessage : Option String
  settings : Option AppSettings
  activeMode : ModeConfig
  isModePrefixOnly : Bool
  isComposing : Bool
deriving DecidableEq

/-- `LauncherAction` from `src/types.ts` (the `SET_INPUT` payload record
is flattened into the constructor arguments). -/
inductive LauncherAction where
  | SET_INPUT (inputValue searchQuery : String) (activeMode : ModeConfig)
      (isModePrefixOnly : Bool)
  | SET_RESULTS (payload : List SearchResult)
  | SET_SELECTED_INDEX (payload : Int)
  | SET_TOAST (payload : Option String)
  | SET_SETTINGS (payload : AppSettings)
  | SET_COMPOSING (payload : Bool)
  | RESET_SEARCH
deriving DecidableEq

/-- `initialLauncherState` from `src/state/launcherReducer.ts`. -/
def initialLauncherState : LauncherState :=
  { inputValue := ""
    searchQuery := ""
    results := []
    selectedIndex := 0
    toastMessage := none
    settings := none
    activeMode := DEFAULT_MODE_CONFIGS .all
    isModePrefixOnly := false
    isComposing := false }

/-- `launcherReducer` from `src/state/launcherReducer.ts`: a pure
transition function; note that `SET_RESULTS` leaves `selectedIndex`
untouched and `SET_SELECTED_INDEX` stores its payload unchecked. -/
def launcherReducer (state : LauncherState) (action : LauncherAction) :
    LauncherState :=
  match action with
  | .SET_INPUT inputValue searchQuery activeMode isModePrefixOnly =>
    { state with
      inputValue := inputValue
      searchQuery := searchQuery
      activeMode := activeMode
      isModePrefixOnly := isModePrefixOnly }
  | .SET_RESULTS payload => { state with results := payload }
  | .SET_SELECTED_INDEX payload => { state with selectedIndex := payload }
  | .SET_TOAST payload => { state with toastMessage := payload }
  | .SET_SETTINGS payload => { state with settings := some payload }
  | .SET_COMPOSING payload => { state with isComposing := payload }
  | .RESET_SEARCH =>
    { state with
      inputValue := ""
      searchQuery := ""
      results := []
      selectedIndex := 0
      activeMode := DEFAULT_MODE_CONFIGS .all
      isModePrefixOnly := false }

/-- The spec's session invariant: `selectedIndex` is a valid index into
`results`, or `0` when `results` is empty. -/
def selectedIndexInvariant (state : LauncherState) : Prop :=
  if state.results = [] then state.selectedIndex = 0
  else 0 ≤ state.selectedIndex ∧ state.selectedIndex < state.results.length

instance (state : LauncherState) : Decidable (selectedIndexInvariant state) := by
  unfold selectedIndexInvariant
  infer_instance

end Launcher

namespace Launcher.App

/-! ### `src/App.tsx`

The launcher window component.  Its React `useState` cells are gathered
into `AppState`; the handlers below embed the synchronous body of each
callback / effect of the source.  `invoke`, `listen` and window calls
are the external collaborators: their observable requests are returned
as data (scheduled flags, call lists, the `windowVisible` flag). -/

/-- The `SearchResult` type declared locally in `src/App.tsx`; unlike
`src/types.ts` it also carries `action_payload`. -/
structure AppSearchResult where
  id : String
  title : String
  subtitle : String
  icon : String
  score : Int
  action_id : String
  action_payload : String
deriving DecidableEq

/-- The `useState`/`useRef` cells of the `App` component that the claims
concern, plus the primary window's visibility.  `latestQuery` embeds
`latestQueryRef.current`. -/
structure AppState where
  query : String
  results : List AppSearchResult
  selectedIndex : Nat
  isComposing : Bool
  isSettingsOpen : Bool
  windowVisible : Bool
  latestQuery : String
deriving DecidableEq

/-- The synchronous prefix of the debounced query effect
(`src/App.tsx`, the `useEffect` over `[query, isComposing, ...]`):
while composing it does nothing; otherwise it records the query in
`latestQueryRef`, and either clears `results`/`selectedIndex` without
scheduling when the trimmed query is empty, or schedules the debounce
timer (returned boolean). -/
def queryEffectSync (st : AppState) : AppState × Bool :=
  if st.isComposing then (st, false)
  else
    let st1 := { st with latestQuery := st.query }
    if jsTrim st1.query = "" then
      ({ st1 with results := [], selectedIndex := 0 }, false)
    else (st1, true)

/-- The resolution handler of the in-flight `submit_query` call
(`src/App.tsx`): `captured` is the closure's `query` at scheduling time;
the response is applied only when `latestQueryRef.current === query`
still holds at resolution time. -/
def resolveQueryResponse (st : AppState) (captured : String)
    (response : List AppSearchResult) : AppState :=
  if st.latestQuery = captured then
    { st with results := response, selectedIndex := 0 }
  else st

/-- `stepSelection` from `src/App.tsx` as the pure index update: with no
results the selection is forced to `0`; otherwise the new index is
`(current + direction + resultsCount) % resultsCount` — a circular
step. -/
def stepSelection (resultsCount : Nat) (current : Nat) (direction : Int) : Nat :=
  if resultsCount = 0 then 0
  else (((current : Int) + direction + resultsCount) % (resultsCount : Int)).toNat

/-- The `Escape` keydown handler of `src/App.tsx`: with the settings
panel open it only closes the panel; otherwise it hides the window
directly (`currentWindow.hide()`), leaving the session state intact. -/
def escapeKeyHandler (st : AppState) : AppState :=
  if st.isSettingsOpen then { st with isSettingsOpen := false }
  else { st with windowVisible := false }

/-- The `hide_window` event listener of `src/App.tsx`: clears query,
results, selection and the settings panel, then hides the window. -/
def hideWindowListener (st : AppState) : AppState :=
  { st with
    query := ""
    results := []
    selectedIndex := 0
    isSettingsOpen := false
    windowVisible := false }

/-- The success continuation of `executeSelected` in `src/App.tsx`
(after `execute_action` resolves): clears query, results and selection —
but does not touch the window visibility or publish `hide_window`. -/
def executeSelectedSuccess (st : AppState) : AppState :=
  { st with query := "", results := [], selectedIndex := 0 }

/-- Events of the debounce pipeline of `src/App.tsx`: a re-run of the
query effect after an input/composition change, or the expiry of the
scheduled timer. -/
inductive DebounceEvent where
  | inputChange (query : String) (isComposing : Bool)
  | timerFire
deriving DecidableEq

/-- Observable debounce state: the at-most-one pending timer (holding
the captured raw query) and the `submit_query` calls made so far, in
order.  React guarantees the previous effect's cleanup
(`clearTimeout`) runs before the next effect body. -/
structure DebounceTrace where
  pending : Option String
  calls : List String
deriving DecidableEq

/-- A query effect run schedules the timer iff the component is not
composing and the trimmed query is non-empty (`src/App.tsx`). -/
def debounceEligible (query : String) (isComposing : Bool) : Bool :=
  !isComposing && !(jsTrim query == "")

/-- One debounce transition: an effect re-run always cancels the
pending timer (the effect cleanup) and schedules a new one only for an
eligible query; timer expiry issues the `submit_query` call carrying the
captured raw query. -/
def debounceStep (st : DebounceTrace) (e : DebounceEvent) : DebounceTrace :=
  match e with
  | .inputChange q c =>
    { st with pending := if debounceEligible q c then some q else none }
  | .timerFire =>
    match st.pending with
    | some q => { pending := none, calls := st.calls ++ [q] }
    | none => st

/-- Run a sequence of debounce events from the idle trace. -/
def debounceRun (events : List DebounceEvent) : DebounceTrace :=
  events.foldl debounceStep ⟨none, []⟩

end Launcher.App

namespace Launcher.Settings

/-! ### `src/components/SettingsWindow.tsx` -/

open Launcher

/-- `SettingsSectionId` from `src/components/SettingsWindow.tsx`. -/
inductive SettingsSectionId where
  | general
  | search
  | about
deriving DecidableEq

/-- The `useState` cells of `SettingsWindow` that the claims concern:
`settings` (the committed copy), `draft`, the toast slot and the active
sidebar section. -/
structure SettingsWindowState where
  committed : Option AppSettings
  draft : Option AppSettings
  toast : Option String
  activeSection : SettingsSectionId
deriving DecidableEq

/-- The JS regex test `/^[a-zA-Z]$/.test(s)`: exactly one ASCII letter. -/
def regexSingleAlpha (s : String) : Bool :=
  match s.toList with
  | [c] => isAsciiAlpha c
  | _ => false

/-- `validatePrefix` (local helper inside `validationMessage` in
`src/components/SettingsWindow.tsx`): empty after trim, then
single-letter shape, each with its own message. -/
def validatePrefix (value label : String) : Option String :=
  let trimmed := jsTrim value
  if trimmed = "" then some (label ++ " 前缀不能为空")
  else if regexSingleAlpha trimmed = false then some (label ++ " 前缀需为单个字母")
  else none

/-- `validationMessage` from `src/components/SettingsWindow.tsx`: the
first failing rule wins, in the source's order — hotkey non-empty,
`query_delay_ms` within bounds, `max_results` within bounds, at least
one result source, then the three mode prefixes (app, bookmark,
search). -/
def validationMessage (draft : Option AppSettings) : Option String :=
  match draft with
  | none => some "正在加载设置"
  | some d =>
    if jsTrim d.global_hotkey = "" then some "快捷键不能为空"
    else if d.query_delay_ms < 50 ∨ d.query_delay_ms > 2000 then
      some "延迟需在 50~2000ms 之间"
    else if d.max_results < 10 ∨ d.max_results > 60 then
      some "结果数量需在 10~60 条之间"
    else if d.enable_app_results = false ∧ d.enable_bookmark_results = false then
      some "至少保留一个结果来源"
    else
      match validatePrefix d.prefix_app "应用模式" with
      | some m => some m
      | none =>
        match validatePrefix d.prefix_bookmark "书签模式" with
        | some m => some m
        | none =>
          match validatePrefix d.prefix_search "搜索模式" with
          | some m => some m
          | none => none

/-- The outcome of a `handleSettingsSave` run: the resulting component
state and the `update_settings` backend calls made (payload = the full
draft sent). -/
structure SaveOutcome where
  state : SettingsWindowState
  backendCalls : List AppSettings
deriving DecidableEq

/-- `handleSettingsSave` from `src/components/SettingsWindow.tsx`.  The
backend collaborator (`invoke("update_settings", {updates: draft})`) is
a parameter returning either the (possibly normalized) settings or an
error.  Validation failure surfaces the message as a toast and makes no
call; success replaces both committed and draft with the response and
surfaces a confirmation toast; backend failure leaves both untouched
and surfaces a failure toast. -/
def handleSettingsSave (backend : AppSettings → Except Unit AppSettings)
    (st : SettingsWindowState) : SaveOutcome :=
  match st.draft with
  | none => ⟨st, []⟩
  | some d =>
    match validationMessage (some d) with
    | some msg => ⟨{ st with toast := some msg }, []⟩
    | none =>
      match backend d with
      | .ok updated =>
        ⟨{ st with
            committed := some updated
            draft := some updated
            toast := some "设置已更新" }, [d]⟩
      | .error _ => ⟨{ st with toast := some "更新设置失败" }, [d]⟩

/-- `handleReset` from `src/components/SettingsWindow.tsx`: when a
committed copy exists, the draft is re-cloned from it, the sidebar
returns to the general section and a toast confirms. -/
def handleReset (st : SettingsWindowState) : SettingsWindowState :=
  match st.committed with
  | some s =>
    { st with
      draft := some s
      activeSection := .general
      toast := some "已恢复保存的配置" }
  | none => st

end Launcher.Settings

namespace Launcher

/-! ### Claim theorems -/

/-- C1: for every in-flight `submit_query` response, if at resolution
time the session's current query (`latestQueryRef.current`) differs from
the query captured when the request was dispatched, the response is
discarded and neither `results` nor `selectedIndex` changes; if they are
equal, `results` is replaced by the response and `selectedIndex` is
reset to `0`. -/
theorem claim_C1_stale_response_guard (st : App.AppState) (captured : String)
    (response : List App.AppSearchResult) :
    (st.latestQuery ≠ captured →
      App.resolveQueryResponse st captured response = st) ∧
    (st.latestQuery = captured →
      (App.resolveQueryResponse st captured response).results = response ∧
      (App.resolveQueryResponse st captured response).selectedIndex = 0) := by
  constructor
  · intro h
    simp [App.resolveQueryResponse, h]
  · intro h
    simp [App.resolveQueryResponse, h]

/-- Witness for C1: a stale response for query `"a"` arriving after the
session advanced to `"ab"` changes nothing, while a matching response is
applied with the selection reset. -/
theorem claim_C1_witness :
    App.resolveQueryResponse ⟨"ab", [], 0, false, false, true, "ab"⟩ "a"
        [⟨"1", "t", "s", "", 1, "app", "p"⟩] =
      ⟨"ab", [], 0, false, false, true, "ab"⟩ ∧
    (App.resolveQueryResponse ⟨"ab", [], 0, false, false, true, "ab"⟩ "ab"
        [⟨"1", "t", "s", "", 1, "app", "p"⟩]).results =
      [⟨"1", "t", "s", "", 1, "app", "p"⟩] ∧
    (App.resolveQueryResponse ⟨"ab", [], 0, false, false, true, "ab"⟩ "ab"
        [⟨"1", "t", "s", "", 1, "app", "p"⟩]).selectedIndex = 0 := by
  refine ⟨?_, ?_, ?_⟩
  · exact (claim_C1_stale_response_guard _ _ _).1 (by decide)
  · exact ((claim_C1_stale_response_guard _ _ _).2 rfl).1
  · exact ((claim_C1_stale_response_guard _ _ _).2 rfl).2

/-- Every in-range `getD` access into the fallback library returns one of
its members (case analysis over the ten indices). -/
lemma fallback_getD_mem (k : Nat) (hk : k < FALLBACK_ICON_LIBRARY.length) :
    FALLBACK_ICON_LIBRARY.getD k ⟨"◎", "", ""⟩ ∈ FALLBACK_ICON_LIBRARY := by
  have hk10 : k < 10 := hk
  interval_cases k <;> decide

/-- C10: for every `SearchResult` the index computed by
`pickFallbackIcon` is strictly below the ten-entry library length, so
the access is in bounds and the returned visual is an element of the
library. -/
theorem claim_C10_fallback_icon_total (item : SearchResult) :
    fallbackIndex item < FALLBACK_ICON_LIBRARY.length ∧
    pickFallbackIcon item ∈ FALLBACK_ICON_LIBRARY := by
  have hlen : FALLBACK_ICON_LIBRARY.length = 10 := rfl
  have hidx : fallbackIndex item < FALLBACK_ICON_LIBRARY.length := by
    unfold fallbackIndex
    rw [hlen]
    exact Nat.mod_lt _ (by decide)
  exact ⟨hidx, fallback_getD_mem _ hidx⟩

/-- Witness for C10: the all-empty result with the most negative int32
score still picks a library member. -/
theorem claim_C10_witness :
    pickFallbackIcon ⟨"", "", "", "", -2147483648, ""⟩ ∈ FALLBACK_ICON_LIBRARY :=
  (claim_C10_fallback_icon_total _).2

/-- C6 counterexample: `stepSelection` in `src/App.tsx` is circular, not
clamped: with two results, stepping forward from the last index wraps to
`0` (the claim requires it to stay at `1`), and stepping backward from
`0` wraps to the last index. -/
theorem claim_C6_counterexample :
    App.stepSelection 2 1 1 = 0 ∧ App.stepSelection 2 1 1 ≠ 1 ∧
    App.stepSelection 2 0 (-1) = 1 ∧ App.stepSelection 2 0 (-1) ≠ 0 := by
  decide

/-- C6 (amended): when `results` is non-empty the selection steps
circularly — `step(+1)` maps `current` to `(current + 1) % count` and
`step(-1)` to `(current + count - 1) % count`, wrapping past either end
— and the resulting index is always in range; when `results` is empty,
stepping forces the selection to `0`. -/
theorem claim_C6_amended (count current : Nat) (h : 0 < count) :
    App.stepSelection count current 1 = (current + 1) % count ∧
    App.stepSelection count current (-1) = (current + count - 1) % count ∧
    App.stepSelection 0 current 1 = 0 ∧
    App.stepSelection 0 current (-1) = 0 ∧
    (∀ d : Int, App.stepSelection count current d < count) := by
  have hc0 : count ≠ 0 := Nat.pos_iff_ne_zero.mp h
  have hbz : (count : Int) ≠ 0 := by exact_mod_cast hc0
  refine ⟨?_, ?_, rfl, rfl, ?_⟩
  · unfold App.stepSelection
    rw [if_neg hc0]
    rw [show ((current : Int) + 1 + count) = ((current + 1 + count : Nat) : Int) by
      push_cast; ring]
    norm_cast
    simp [Nat.add_mod_right]
  · unfold App.stepSelection
    rw [if_neg hc0]
    rw [show ((current : Int) + (-1) + count) = ((current + count - 1 : Nat) : Int) by
      omega]
    norm_cast
  · intro d
    unfold App.stepSelection
    rw [if_neg hc0]
    have hpos : (0 : Int) < (count : Int) := by exact_mod_cast h
    have h1 := Int.emod_nonneg ((current : Int) + d + count) hbz
    have h2 := Int.emod_lt_of_pos ((current : Int) + d + count) hpos
    omega

/-- Witness for C6 (amended): with three results, stepping forward from
index `1` reaches `2`, stepping backward reaches `0`, and both stay in
range. -/
theorem claim_C6_witness :
    App.stepSelection 3 1 1 = (1 + 1) % 3 ∧
    App.stepSelection 3 1 (-1) = (1 + 3 - 1) % 3 ∧
    App.stepSelection 0 1 1 = 0 ∧
    App.stepSelection 0 1 (-1) = 0 ∧
    (∀ d : Int, App.stepSelection 3 1 d < 3) :=
  claim_C6_amended 3 1 (by decide)

/-- C7 counterexample: from a state with query `"ab"`, one result and
the settings panel closed, the Escape handler hides the window but
leaves the session untouched, the `hide_window` listener resets and
hides, and the executed-action path resets without hiding — the trigger
paths do not produce identical end states. -/
theorem claim_C7_counterexample :
    App.escapeKeyHandler
        ⟨"ab", [⟨"1", "t", "s", "", 1, "app", "p"⟩], 0, false, false, true, "ab"⟩ ≠
      App.hideWindowListener
        ⟨"ab", [⟨"1", "t", "s", "", 1, "app", "p"⟩], 0, false, false, true, "ab"⟩ ∧
    (App.escapeKeyHandler
        ⟨"ab", [⟨"1", "t", "s", "", 1, "app", "p"⟩], 0, false, false, true, "ab"⟩).query =
      "ab" ∧
    (App.executeSelectedSuccess
        ⟨"ab", [⟨"1", "t", "s", "", 1, "app", "p"⟩], 0, false, false, true, "ab"⟩).windowVisible =
      true := by
  decide

/-- C7 (amended): the three hide/reset triggers are not unified.  With
the settings panel closed, an Escape keypress hides the window directly
(`currentWindow.hide()`) while preserving query, results and selection;
the `hide_window` event listener both resets the session and hides; an
executed action resets the session but leaves the window visible. -/
theorem claim_C7_amended (st : App.AppState) (h : st.isSettingsOpen = false) :
    App.escapeKeyHandler st = { st with windowVisible := false } ∧
    App.hideWindowListener st =
      { st with
          query := ""
          results := []
          selectedIndex := 0
          isSettingsOpen := false
          windowVisible := false } ∧
    App.executeSelectedSuccess st =
      { st with query := "", results := [], selectedIndex := 0 } ∧
    (App.executeSelectedSuccess st).windowVisible = st.windowVisible := by
  refine ⟨?_, rfl, rfl, rfl⟩
  simp [App.escapeKeyHandler, h]

/-- Witness for C7 (amended): the three trigger paths evaluated on a
concrete session state. -/
theorem claim_C7_witness :
    App.escapeKeyHandler ⟨"ab", [], 1, false, false, true, "ab"⟩ =
      ⟨"ab", [], 1, false, false, false, "ab"⟩ ∧
    App.hideWindowListener ⟨"ab", [], 1, false, false, true, "ab"⟩ =
      ⟨"", [], 0, false, false, false, "ab"⟩ ∧
    App.executeSelectedSuccess ⟨"ab", [], 1, false, false, true, "ab"⟩ =
      ⟨"", [], 0, false, false, true, "ab"⟩ ∧
    (App.executeSelectedSuccess ⟨"ab", [], 1, false, false, true, "ab"⟩).windowVisible =
      true :=
  claim_C7_amended ⟨"ab", [], 1, false, false, true, "ab"⟩ rfl

/-- C2 counterexample: from a reachable state (two results selected at
index `1`, built from the initial state by dispatched actions, and
satisfying the invariant), a `SET_RESULTS` action carrying a shorter
one-element list leaves `selectedIndex = 1` pointing past the end; a
`SET_SELECTED_INDEX` with an arbitrary payload breaks it as well. -/
theorem claim_C2_counterexample :
    selectedIndexInvariant
      (launcherReducer
        (launcherReducer initialLauncherState
          (.SET_RESULTS [⟨"1", "a", "", "", 2, "app"⟩, ⟨"2", "b", "", "", 1, "app"⟩]))
        (.SET_SELECTED_INDEX 1)) ∧
    ¬ selectedIndexInvariant
      (launcherReducer
        (launcherReducer
          (launcherReducer initialLauncherState
            (.SET_RESULTS [⟨"1", "a", "", "", 2, "app"⟩, ⟨"2", "b", "", "", 1, "app"⟩]))
          (.SET_SELECTED_INDEX 1))
        (.SET_RESULTS [⟨"1", "a", "", "", 2, "app"⟩])) ∧
    ¬ selectedIndexInvariant
      (launcherReducer
        (launcherReducer initialLauncherState
          (.SET_RESULTS [⟨"1", "a", "", "", 2, "app"⟩]))
        (.SET_SELECTED_INDEX 5)) := by
  refine ⟨by decide, by decide, by decide⟩

/-- C2 (amended): the reducer alone preserves the selection invariant
for every action that touches neither `results` nor `selectedIndex`
(`SET_INPUT`, `SET_TOAST`, `SET_SETTINGS`, `SET_COMPOSING`) and for
`RESET_SEARCH`; it does not preserve it for a bare `SET_RESULTS`
(which keeps the old index) or an unchecked `SET_SELECTED_INDEX`, but
the caller's protocol of pairing every `SET_RESULTS` with an immediate
`SET_SELECTED_INDEX 0` re-establishes the invariant for any payload. -/
theorem claim_C2_amended (st : LauncherState) (h : selectedIndexInvariant st) :
    (∀ iv sq am po,
      selectedIndexInvariant (launcherReducer st (.SET_INPUT iv sq am po))) ∧
    (∀ t, selectedIndexInvariant (launcherReducer st (.SET_TOAST t))) ∧
    (∀ s, selectedIndexInvariant (launcherReducer st (.SET_SETTINGS s))) ∧
    (∀ b, selectedIndexInvariant (launcherReducer st (.SET_COMPOSING b))) ∧
    selectedIndexInvariant (launcherReducer st .RESET_SEARCH) ∧
    (∀ p, selectedIndexInvariant
      (launcherReducer (launcherReducer st (.SET_RESULTS p))
        (.SET_SELECTED_INDEX 0))) := by
  refine ⟨fun iv sq am po => ?_, fun t => ?_, fun s => ?_, fun b => ?_, ?_, fun p => ?_⟩
  · simpa [selectedIndexInvariant, launcherReducer] using h
  · simpa [selectedIndexInvariant, launcherReducer] using h
  · simpa [selectedIndexInvariant, launcherReducer] using h
  · simpa [selectedIndexInvariant, launcherReducer] using h
  · simp [selectedIndexInvariant, launcherReducer]
  · by_cases hp : p = [] <;>
      simp [selectedIndexInvariant, launcherReducer, hp, List.length_pos]

/-- Witness for C2 (amended): applied at the initial state — a reset
keeps the invariant, and a `SET_RESULTS`/`SET_SELECTED_INDEX 0` pair
re-establishes it for a non-empty payload. -/
theorem claim_C2_witness :
    selectedIndexInvariant (launcherReducer initialLauncherState .RESET_SEARCH) ∧
    selectedIndexInvariant
      (launcherReducer
        (launcherReducer initialLauncherState
          (.SET_RESULTS [⟨"1", "a", "", "", 2, "app"⟩]))
        (.SET_SELECTED_INDEX 0)) :=
  ⟨(claim_C2_amended initialLauncherState (by decide)).2.2.2.2.1,
   (claim_C2_amended initialLauncherState (by decide)).2.2.2.2.2 _⟩

/-- Folding a run of eligible input changes over the debounce machine
replaces the pending timer with the last query and makes no call. -/
lemma debounce_inputs_foldl (qs : List String) (q : String)
    (he : ∀ x ∈ qs, App.debounceEligible x false = true)
    (hl : qs.getLast? = some q) (st : App.DebounceTrace) :
    qs.foldl (fun acc x => App.debounceStep acc (.inputChange x false)) st =
      ⟨some q, st.calls⟩ := by
  induction qs generalizing st with
  | nil => simp at hl
  | cons a t ih =>
    cases t with
    | nil =>
      simp at hl
      subst hl
      have ha := he a (by simp)
      simp [App.debounceStep, ha]
    | cons b t2 =>
      rw [List.getLast?_cons_cons] at hl
      rw [List.foldl_cons]
      have := ih (fun x hx => he x (by simp [hx])) hl
        (App.debounceStep st (.inputChange a false))
      simpa [App.debounceStep] using this

/-- C3: each re-run of the query effect cancels the previous pending
timer (and makes no call by itself); and for any non-empty sequence of
eligible query updates all arriving before the timer fires, followed by
the single timer expiry, exactly one `submit_query` call is made and it
carries the final query. -/
theorem claim_C3_debounce_coalescing :
    (∀ (st : App.DebounceTrace) (q : String) (c : Bool),
      (App.debounceStep st (.inputChange q c)).pending =
        (if App.debounceEligible q c then some q else none) ∧
      (App.debounceStep st (.inputChange q c)).calls = st.calls) ∧
    (∀ (qs : List String) (q : String),
      (∀ x ∈ qs, App.debounceEligible x false = true) →
      qs.getLast? = some q →
      App.debounceRun ((qs.map fun x => .inputChange x false) ++ [.timerFire]) =
        ⟨none, [q]⟩) := by
  constructor
  · intro st q c
    exact ⟨rfl, rfl⟩
  · intro qs q he hl
    unfold App.debounceRun
    rw [List.foldl_append, List.foldl_map]
    rw [debounce_inputs_foldl qs q he hl]
    rfl

/-- Witness for C3: inputs `"a"`, `"ab"`, `"abc"` fired faster than the
delay produce exactly one call, carrying `"abc"`. -/
theorem claim_C3_witness :
    App.debounceRun
      ((["a", "ab", "abc"].map fun x => .inputChange x false) ++ [.timerFire]) =
      ⟨none, ["abc"]⟩ :=
  claim_C3_debounce_coalescing.2 ["a", "ab", "abc"] "abc" (by decide) rfl

/-- C5: in `src/App.tsx` the session's cleaned query is the trimmed raw
input (the component consults no prefix map), and resolution happens
only outside IME composition.  For every input whose trimmed value is
empty, the query effect synchronously clears `results` and forces
`selectedIndex` to `0`, schedules no debounce timer — and such an
effect re-run also cancels any pending timer without ever issuing a
`submit_query` call. -/
theorem claim_C5_empty_query_clear (st : App.AppState)
    (hc : st.isComposing = false) (hq : jsTrim st.query = "") :
    (App.queryEffectSync st).1.results = [] ∧
    (App.queryEffectSync st).1.selectedIndex = 0 ∧
    (App.queryEffectSync st).2 = false ∧
    (∀ dst : App.DebounceTrace,
      (App.debounceStep dst (.inputChange st.query false)).pending = none ∧
      (App.debounceStep dst (.inputChange st.query false)).calls = dst.calls) := by
  refine ⟨?_, ?_, ?_, fun dst => ⟨?_, rfl⟩⟩ <;>
    simp [App.queryEffectSync, App.debounceStep, App.debounceEligible, hc, hq]

/-- Witness for C5: a whitespace-only input with stale results clears
them, resets the selection, and schedules nothing. -/
theorem claim_C5_witness :
    (App.queryEffectSync
      ⟨"   ", [⟨"1", "t", "s", "", 1, "app", "p"⟩], 3, false, false, true, "x"⟩).1.results =
      [] ∧
    (App.queryEffectSync
      ⟨"   ", [⟨"1", "t", "s", "", 1, "app", "p"⟩], 3, false, false, true, "x"⟩).1.selectedIndex =
      0 ∧
    (App.queryEffectSync
      ⟨"   ", [⟨"1", "t", "s", "", 1, "app", "p"⟩], 3, false, false, true, "x"⟩).2 =
      false := by
  have h := claim_C5_empty_query_clear
    ⟨"   ", [⟨"1", "t", "s", "", 1, "app", "p"⟩], 3, false, false, true, "x"⟩
    rfl (by decide)
  exact ⟨h.1, h.2.1, h.2.2.1⟩

/-- C4 counterexample: with the default prefix map (in which the letter
`'s'` maps to the search mode), the bare input `"s"` does not match the
resolver's regex — a separator (whitespace or colon) is required after
the letter — so it resolves to the `all` mode with `cleanedQuery = "s"`
and `isPrefixOnly = false`; moreover its trimmed value is non-empty, so
the query effect of `src/App.tsx` treats it as dispatch-eligible. -/
theorem claim_C4_counterexample :
    defaultPrefixToMode 's' = some (DEFAULT_MODE_CONFIGS .search) ∧
    detectModeFromInput "s" defaultPrefixToMode =
      ⟨DEFAULT_MODE_CONFIGS .all, "s", false⟩ ∧
    ¬((detectModeFromInput "s" defaultPrefixToMode).mode =
        DEFAULT_MODE_CONFIGS .search ∧
      (detectModeFromInput "s" defaultPrefixToMode).cleanedQuery = "" ∧
      (detectModeFromInput "s" defaultPrefixToMode).isPrefixOnly = true) := by
  refine ⟨by decide, by decide, by decide⟩

/-- C4 (amended): resolving the bare prefix letter `"s"` yields the
`all` mode with `cleanedQuery = "s"` and `isPrefixOnly = false`, and as
a non-empty ordinary query it is debounce-eligible (a backend call does
fire once input pauses); the prefix-only resolution claimed requires a
separator after the letter — both `"s:"` and `"s "` yield
`mode = search`, `cleanedQuery = ""`, `isPrefixOnly = true`. -/
theorem claim_C4_amended :
    detectModeFromInput "s" defaultPrefixToMode =
      ⟨DEFAULT_MODE_CONFIGS .all, "s", false⟩ ∧
    App.debounceEligible "s" false = true ∧
    detectModeFromInput "s:" defaultPrefixToMode =
      ⟨DEFAULT_MODE_CONFIGS .search, "", true⟩ ∧
    detectModeFromInput "s " defaultPrefixToMode =
      ⟨DEFAULT_MODE_CONFIGS .search, "", true⟩ := by
  refine ⟨by decide, by decide, by decide, by decide⟩

/-- A prefix passes `validatePrefix` exactly when its trimmed value is a
single ASCII letter (an empty trim also fails the single-letter test). -/
lemma validatePrefix_eq_none_iff (v l : String) :
    Settings.validatePrefix v l = none ↔
      Settings.regexSingleAlpha (jsTrim v) = true := by
  unfold Settings.validatePrefix
  dsimp only
  split_ifs with h1 h2
  · rw [h1]
    simp [Settings.regexSingleAlpha]
  · simp [h2]
  · simp_all

/-- C8: a `save()` on any draft that fails validation makes no backend
call, leaves the committed settings unchanged, and surfaces exactly the
first failing rule's message as the toast; the rules are evaluated in
the fixed source order — non-empty hotkey, `query_delay_ms` in
`[50, 2000]`, `max_results` in `[10, 60]`, at least one result source,
then each mode prefix a single alphabetic character after trim — and a
draft validates exactly when all five rules hold. -/
theorem claim_C8_validation_gate :
    (∀ (backend : AppSettings → Except Unit AppSettings)
        (st : Settings.SettingsWindowState) (d : AppSettings) (m : String),
      st.draft = some d →
      Settings.validationMessage (some d) = some m →
      Settings.handleSettingsSave backend st =
        ⟨{ st with toast := some m }, []⟩) ∧
    (∀ d : AppSettings,
      (jsTrim d.global_hotkey = "" →
        Settings.validationMessage (some d) = some "快捷键不能为空") ∧
      (jsTrim d.global_hotkey ≠ "" →
        (d.query_delay_ms < 50 ∨ d.query_delay_ms > 2000) →
        Settings.validationMessage (some d) = some "延迟需在 50~2000ms 之间") ∧
      (jsTrim d.global_hotkey ≠ "" →
        ¬(d.query_delay_ms < 50 ∨ d.query_delay_ms > 2000) →
        (d.max_results < 10 ∨ d.max_results > 60) →
        Settings.validationMessage (some d) = some "结果数量需在 10~60 条之间") ∧
      (jsTrim d.global_hotkey ≠ "" →
        ¬(d.query_delay_ms < 50 ∨ d.query_delay_ms > 2000) →
        ¬(d.max_results < 10 ∨ d.max_results > 60) →
        d.enable_app_results = false ∧ d.enable_bookmark_results = false →
        Settings.validationMessage (some d) = some "至少保留一个结果来源") ∧
      (Settings.validationMessage (some d) = none ↔
        jsTrim d.global_hotkey ≠ "" ∧
        (50 ≤ d.query_delay_ms ∧ d.query_delay_ms ≤ 2000) ∧
        (10 ≤ d.max_results ∧ d.max_results ≤ 60) ∧
        (d.enable_app_results = true ∨ d.enable_bookmark_results = true) ∧
        Settings.regexSingleAlpha (jsTrim d.prefix_app) = true ∧
        Settings.regexSingleAlpha (jsTrim d.prefix_bookmark) = true ∧
        Settings.regexSingleAlpha (jsTrim d.prefix_search) = true)) := by
  constructor
  · intro backend st d m h1 h2
    unfold Settings.handleSettingsSave
    rw [h1]
    dsimp only
    rw [h2]
  · intro d
    have ha := validatePrefix_eq_none_iff d.prefix_app "应用模式"
    have hb := validatePrefix_eq_none_iff d.prefix_bookmark "书签模式"
    have hc := validatePrefix_eq_none_iff d.prefix_search "搜索模式"
    refine ⟨fun h1 => ?_, fun h1 h2 => ?_, fun h1 h2 h3 => ?_,
      fun h1 h2 h3 h4 => ?_, ?_⟩
    · simp [Settings.validationMessage, h1]
    · simp [Settings.validationMessage, h1, h2]
    · simp [Settings.validationMessage, h1, h2, h3]
    · simp [Settings.validationMessage, h1, h2, h3, h4]
    · unfold Settings.validationMessage
      dsimp only
      split_ifs with h1 h2 h3 h4
      · simp [h1]
      · constructor
        · intro hfalse
          simp at hfalse
        · intro hr
          omega
      · constructor
        · intro hfalse
          simp at hfalse
        · intro hr
          omega
      · constructor
        · intro hfalse
          simp at hfalse
        · intro hr
          rcases hr.2.2.2.1 with h | h <;> simp [h] at h4
      · cases hpa : Settings.validatePrefix d.prefix_app "应用模式" with
        | some m =>
          simp only [hpa]
          constructor
          · intro hfalse
            simp at hfalse
          · intro hr
            rw [hpa] at ha
            simp [hr.2.2.2.2.1] at ha
        | none =>
          cases hpb : Settings.validatePrefix d.prefix_bookmark "书签模式" with
          | some m =>
            simp only [hpa, hpb]
            constructor
            · intro hfalse
              simp at hfalse
            · intro hr
              rw [hpb] at hb
              simp [hr.2.2.2.2.2.1] at hb
          | none =>
            cases hpc : Settings.validatePrefix d.prefix_search "搜索模式" with
            | some m =>
              simp only [hpa, hpb, hpc]
              constructor
              · intro hfalse
                simp at hfalse
              · intro hr
                rw [hpc] at hc
                simp [hr.2.2.2.2.2.2] at hc
            | none =>
              simp only [hpa, hpb, hpc]
              rw [hpa] at ha
              rw [hpb] at hb
              rw [hpc] at hc
              simp only [true_iff] at ha hb hc
              constructor
              · intro _
                refine ⟨h1, by omega, by omega, ?_, ha, hb, hc⟩
                rcases Bool.eq_false_or_eq_true d.enable_app_results with h | h
                · exact Or.inl h
                · rcases Bool.eq_false_or_eq_true d.enable_bookmark_results with h' | h'
                  · exact Or.inr h'
                  · exact absurd ⟨h, h'⟩ h4
              · intro _
                trivial

/-- Witness for C8: the draft with `query_delay_ms = 10` (all other
rules passing) is rejected — `save()` only sets the 50–2000 bound toast,
the committed copy is untouched and no backend call is made. -/
theorem claim_C8_witness :
    Settings.handleSettingsSave (fun s => Except.ok s)
      ⟨some ⟨"Alt+Space", 120, 20, true, true, "r", "b", "s", false, false, false⟩,
       some ⟨"Alt+Space", 10, 20, true, true, "r", "b", "s", false, false, false⟩,
       none, .general⟩ =
      ⟨⟨some ⟨"Alt+Space", 120, 20, true, true, "r", "b", "s", false, false, false⟩,
        some ⟨"Alt+Space", 10, 20, true, true, "r", "b", "s", false, false, false⟩,
        some "延迟需在 50~2000ms 之间", .general⟩, []⟩ :=
  claim_C8_validation_gate.1 _ _
    ⟨"Alt+Space", 10, 20, true, true, "r", "b", "s", false, false, false⟩
    "延迟需在 50~2000ms 之间" rfl (by decide)

/-- C9: `reset()` restores the draft to exactly the committed settings
(for every committed value, whatever edits the draft accumulated), and
`save()` on a valid draft calls the backend with the full draft and, on
success, makes committed and draft both equal to the backend's returned
settings value. -/
theorem claim_C9_settings_roundtrip :
    (∀ (st : Settings.SettingsWindowState) (s : AppSettings),
      st.committed = some s →
      (Settings.handleReset st).draft = some s ∧
      (Settings.handleReset st).committed = some s) ∧
    (∀ (backend : AppSettings → Except Unit AppSettings)
        (st : Settings.SettingsWindowState) (d u : AppSettings),
      st.draft = some d →
      Settings.validationMessage (some d) = none →
      backend d = .ok u →
      (Settings.handleSettingsSave backend st).backendCalls = [d] ∧
      (Settings.handleSettingsSave backend st).state.committed = some u ∧
      (Settings.handleSettingsSave backend st).state.draft = some u) := by
  constructor
  · intro st s h
    unfold Settings.handleReset
    rw [h]
    exact ⟨rfl, by simp [h]⟩
  · intro backend st d u h1 h2 h3
    unfold Settings.handleSettingsSave
    rw [h1]
    dsimp only
    rw [h2]
    dsimp only
    rw [h3]
    exact ⟨rfl, rfl, rfl⟩

/-- Witness for C9: a dirty draft is restored by reset, and saving a
valid draft through an identity backend commits exactly that draft. -/
theorem claim_C9_witness :
    (Settings.handleReset
      ⟨some ⟨"Ctrl+Space", 200, 30, true, false, "r", "b", "s", true, false, true⟩,
       some ⟨"Alt+Space", 120, 20, true, true, "r", "b", "s", false, false, false⟩,
       none, .search⟩).draft =
      some ⟨"Ctrl+Space", 200, 30, true, false, "r", "b", "s", true, false, true⟩ ∧
    (Settings.handleSettingsSave (fun s => Except.ok s)
      ⟨some ⟨"Ctrl+Space", 200, 30, true, false, "r", "b", "s", true, false, true⟩,
       some ⟨"Alt+Space", 120, 20, true, true, "r", "b", "s", false, false, false⟩,
       none, .general⟩).backendCalls =
      [⟨"Alt+Space", 120, 20, true, true, "r", "b", "s", false, false, false⟩] ∧
    (Settings.handleSettingsSave (fun s => Except.ok s)
      ⟨some ⟨"Ctrl+Space", 200, 30, true, false, "r", "b", "s", true, false, true⟩,
       some ⟨"Alt+Space", 120, 20, true, true, "r", "b", "s", false, false, false⟩,
       none, .general⟩).state.committed =
      some ⟨"Alt+Space", 120, 20, true, true, "r", "b", "s", false, false, false⟩ ∧
    (Settings.handleSettingsSave (fun s => Except.ok s)
      ⟨some ⟨"Ctrl+Space", 200, 30, true, false, "r", "b", "s", true, false, true⟩,
       some ⟨"Alt+Space", 120, 20, true, true, "r", "b", "s", false, false, false⟩,
       none, .general⟩).state.draft =
      some ⟨"Alt+Space", 120, 20, true, true, "r", "b", "s", false, false, false⟩ := by
  have hr := (claim_C9_settings_roundtrip.1
    ⟨some ⟨"Ctrl+Space", 200, 30, true, false, "r", "b", "s", true, false, true⟩,
     some ⟨"Alt+Space", 120, 20, true, true, "r", "b", "s", false, false, false⟩,
     none, .search⟩
    ⟨"Ctrl+Space", 200, 30, true, false, "r", "b", "s", true, false, true⟩ rfl).1
  have hs := claim_C9_settings_roundtrip.2 (fun s => Except.ok s)
    ⟨some ⟨"Ctrl+Space", 200, 30, true, false, "r", "b", "s", true, false, true⟩,
     some ⟨"Alt+Space", 120, 20, true, true, "r", "b", "s", false, false, false⟩,
     none, .general⟩
    ⟨"Alt+Space", 120, 20, true, true, "r", "b", "s", false, false, false⟩
    ⟨"Alt+Space", 120, 20, true, true, "r", "b", "s", false, false, false⟩
    rfl (by decide) rfl
  exact ⟨hr, hs.1, hs.2.1, hs.2.2⟩

end Launcher
